import Mathlib

/-!
A shallow embedding of `src/App.cpp` from the sen-laboratories/mime repository:
a command-line tool that installs, deletes and lists MIME types in the Haiku
MIME registry, reading the metadata from an application resource container.

External OS services (BFile/BResources, BMimeType, fs_create_index /
fs_remove_index, BMimeType::GetInstalledTypes) are modelled by an explicit
environment `Env` describing their observable behaviour; the calls the program
makes into the registry and the index service are recorded as a list of
`Event`s, and console output as a list of `LogMsg`s.  Each definition cites the
`App.cpp` lines it embeds.
-/

namespace Mime

/-- Haiku status code `B_OK` (Errors.h). -/
def B_OK : Int := 0

/-- Haiku status code `B_ERROR` (-1). -/
def B_ERROR : Int := -1

/-- Haiku `B_GENERAL_ERROR_BASE` (INT32_MIN). -/
def B_GENERAL_ERROR_BASE : Int := -2147483648

/-- Haiku `B_STORAGE_ERROR_BASE` (`B_GENERAL_ERROR_BASE + 0x6000`). -/
def B_STORAGE_ERROR_BASE : Int := B_GENERAL_ERROR_BASE + 0x6000

/-- Haiku `B_FILE_EXISTS` (`B_STORAGE_ERROR_BASE + 2`), the errno checked at
App.cpp line 191. -/
def B_FILE_EXISTS : Int := B_STORAGE_ERROR_BASE + 2

/-- Haiku `B_ENTRY_NOT_FOUND` (`B_STORAGE_ERROR_BASE + 3`), the errno checked at
App.cpp line 193. -/
def B_ENTRY_NOT_FOUND : Int := B_STORAGE_ERROR_BASE + 3

/-- C `EXIT_SUCCESS`. -/
def EXIT_SUCCESS : Int := 0

/-- C `EXIT_FAILURE`. -/
def EXIT_FAILURE : Int := 1

/-- Haiku type code `B_STRING_TYPE` ('CSTR'), the default value used by
`GetUInt32("attr:type", i, B_STRING_TYPE)` at App.cpp line 173. -/
def B_STRING_TYPE : Nat := 0x43535452

/-- One call the program makes into the MIME registry or the filesystem index
service (the externally observable side-effecting calls of App.cpp). -/
inductive Event where
  | install (t : String)
  | setShortDescription (t s : String)
  | setLongDescription (t s : String)
  | setPreferredApp (t s : String)
  | setSnifferRule (t s : String)
  | setFileExtensions (t : String) (exts : List String)
  | setAttrInfo (t : String)
  | setIcon (t : String) (data : List Nat)
  | createIndex (name : String) (attrType : Nat)
  | removeIndex (name : String)
  | delete (t : String)

/-- Whether an event is one of the registry metadata-field writes
(`Set...` calls of BMimeType). -/
def Event.isFieldWrite : Event → Bool
  | .setShortDescription _ _ => true
  | .setLongDescription _ _ => true
  | .setPreferredApp _ _ => true
  | .setSnifferRule _ _ => true
  | .setFileExtensions _ _ => true
  | .setAttrInfo _ => true
  | .setIcon _ _ => true
  | _ => false

/-- Whether an event is a filesystem index operation
(`fs_create_index` / `fs_remove_index`). -/
def Event.isIndexOp : Event → Bool
  | .createIndex _ _ => true
  | .removeIndex _ => true
  | _ => false

/-- Whether an event is a `BMimeType::Install` call. -/
def Event.isInstallCall : Event → Bool
  | .install _ => true
  | _ => false

/-- One line of console output (stdout or stderr) of App.cpp, abstracted from
its printf/fprintf format strings. -/
inductive LogMsg where
  | usage
  | unknownCommand (c : String)
  | failedToInstall (t : String) (e : Int)
  | successfullyInstalled (t : String)
  | failedToUninstall (t : String) (e : Int)
  | successfullyUninstalled (t : String)
  | failedToQueryDB (e : Int)
  | installedEntities
  | installedRelations
  | cannotReadResources (path : String)
  | errorInitResources (path : String) (e : Int)
  | invalidMimeType (mime path : String) (e : Int)
  | alreadyInstalledUpdating (mime : String)
  | errorInstalling (mime path : String) (e : Int)
  | addingAttrToIndex (pub name : String)
  | removingAttrFromIndex (pub name : String)
  | indexOK
  | indexExistsSkipping
  | indexNotFoundSkipping
  | indexError (e : Int)
  | notValidType (t : String)
  | notInstalledSkipping (t : String)

/-- One attribute entry of a type's attribute schema, as it is added to the
`META:ATTR_INFO` message by producers: per entry one `attr:name`, one
`attr:public_name`, one `attr:type` value, and optionally one
`attr:searchable` bool. -/
structure AttributeSpec where
  name : String
  publicName : String
  attrType : Nat
  searchable : Option Bool

/-- The unflattened `META:ATTR_INFO` BMessage as the program sees it: for each
field name, the array of values stored under that name, in order of addition.
An entry without an explicit `attr:searchable` bool contributes nothing to the
`searchable` array (BMessage stores repeated fields per-name). -/
structure AttrMsg where
  names : List String
  publicNames : List String
  types : List Nat
  searchable : List Bool

/-- The BMessage arrays produced by adding a list of attribute entries in
order: every entry contributes to `names`, `publicNames` and `types`, and only
entries with an explicit flag contribute to `searchable`. -/
def AttrMsg.ofSpecs (specs : List AttributeSpec) : AttrMsg :=
  { names := specs.map AttributeSpec.name
  , publicNames := specs.map AttributeSpec.publicName
  , types := specs.map AttributeSpec.attrType
  , searchable := specs.filterMap AttributeSpec.searchable }

/-- Contents of the resource container at the given path, one field per
`LoadResource` call of App.cpp lines 106-204.  For the two flattened-message
resources, `some none` means the resource is present but `Unflatten` fails,
`some (some m)` that it is present and unflattens to `m`. -/
structure ResourceData where
  metaType : Option String
  metaSDesc : Option String
  metaLDesc : Option String
  metaPrefApp : Option String
  metaSniffRule : Option String
  metaExtens : Option (Option (List String))
  metaAttrInfo : Option (Option AttrMsg)
  metaIcon : Option (List Nat)

/-- Observable behaviour of the external OS services the program calls.
The `...Result` fields give the status each external call would return; the
program is free to consult or ignore them, exactly as the source does. -/
structure Env where
  fileReadable : Bool
  initCheck : Int
  isValid : String → Bool
  isInstalled : String → Bool
  installResult : String → Int
  setShortDescResult : String → String → Int
  setLongDescResult : String → String → Int
  setPreferredAppResult : String → String → Int
  setSnifferRuleResult : String → String → Int
  setFileExtensionsResult : String → Int
  setAttrInfoResult : String → Int
  setIconResult : String → Int
  createIndexResult : String → Nat → Int × Int
  removeIndexResult : String → Int × Int
  deleteResult : String → Int
  uninitDeleteStatus : Int
  getInstalledTypes : String → Int

/-- Result of one operation: the returned status, the registry/index calls
made, and the console output. -/
structure Out where
  status : Int
  events : List Event
  log : List LogMsg

/-- Console output of one index call outcome (App.cpp lines 188-198): the
return code is compared with `B_OK`, then errno against `B_FILE_EXISTS` and
`B_ENTRY_NOT_FOUND`. -/
def fsIndexOutcomeLog (r errno : Int) : List LogMsg :=
  if r = B_OK then [LogMsg.indexOK]
  else if errno = B_FILE_EXISTS then [LogMsg.indexExistsSkipping]
  else if errno = B_ENTRY_NOT_FOUND then [LogMsg.indexNotFoundSkipping]
  else [LogMsg.indexError errno]

/-- Index call of iteration `i` of the loop at App.cpp lines 170-199.  The
loop bound is the count of `attr:searchable` entries (line 166), so
`FindBool("attr:searchable", i)` (line 175) succeeds exactly when
`i < searchable.length`; `attr:name` and `attr:type` are read at the same
index `i` with defaults `""` and `B_STRING_TYPE` (lines 171-173). -/
def indexStepEvents (msg : AttrMsg) (i : Nat) : List Event :=
  let attrName := msg.names.getD i ""
  let attrType := msg.types.getD i B_STRING_TYPE
  if i < msg.searchable.length then
    if msg.searchable.getD i false then [Event.createIndex attrName attrType]
    else [Event.removeIndex attrName]
  else []

/-- Console output of iteration `i` of the loop at App.cpp lines 170-199. -/
def indexStepLog (env : Env) (msg : AttrMsg) (i : Nat) : List LogMsg :=
  let attrName := msg.names.getD i ""
  let attrPublicName := msg.publicNames.getD i ""
  let attrType := msg.types.getD i B_STRING_TYPE
  if i < msg.searchable.length then
    if msg.searchable.getD i false then
      let rc := env.createIndexResult attrName attrType
      LogMsg.addingAttrToIndex attrPublicName attrName :: fsIndexOutcomeLog rc.1 rc.2
    else
      let rc := env.removeIndexResult attrName
      LogMsg.removingAttrFromIndex attrPublicName attrName :: fsIndexOutcomeLog rc.1 rc.2
  else []

/-- All index calls of the loop at App.cpp lines 170-200, in order
(`indexAttrCount` iterations, `indexAttrCount` = number of `attr:searchable`
entries, set to 0 by `GetInfo` when the field is absent). -/
def indexLoopEvents (msg : AttrMsg) : List Event :=
  ((List.range msg.searchable.length).map (indexStepEvents msg)).flatten

/-- All console output of the loop at App.cpp lines 170-200, in order. -/
def indexLoopLog (env : Env) (msg : AttrMsg) : List LogMsg :=
  ((List.range msg.searchable.length).map (indexStepLog env msg)).flatten

/-- The singleton event for an optional resource that is present, nothing for
an absent one. -/
def optEvent {α : Type} (o : Option α) (f : α → Event) : List Event :=
  match o with
  | some x => [f x]
  | none => []

/-- Registry calls of the attribute-info block (App.cpp lines 160-201): run
only when `META:ATTR_INFO` is present and unflattens; `SetAttrInfo` is called
(result ignored) and then the index loop runs. -/
def attrEvents (o : Option AttrMsg) (mime : String) : List Event :=
  match o with
  | some msg => Event.setAttrInfo mime :: indexLoopEvents msg
  | none => []

/-- Registry call of the icon block (App.cpp lines 204-207): `SetIcon` is
called only when the `META:ICON` resource is present and its loaded size is
strictly positive. -/
def iconEvents (o : Option (List Nat)) (mime : String) : List Event :=
  match o with
  | some bytes => if 0 < bytes.length then [Event.setIcon mime bytes] else []
  | none => []

/-- Registry and index calls of App.cpp lines 133-207, run once the required
short description resource was found: `SetShortDescription` (line 133, result
ignored), then each optional field present, then the icon.  None of the calls'
results are consulted. -/
def installRestEvents (res : ResourceData) (mime sDesc : String) : List Event :=
  [Event.setShortDescription mime sDesc]
    ++ optEvent res.metaLDesc (fun l => Event.setLongDescription mime l)
    ++ optEvent res.metaPrefApp (fun p => Event.setPreferredApp mime p)
    ++ optEvent res.metaSniffRule (fun r => Event.setSnifferRule mime r)
    ++ optEvent res.metaExtens.join (fun x => Event.setFileExtensions mime x)
    ++ attrEvents res.metaAttrInfo.join mime
    ++ iconEvents res.metaIcon mime

/-- Console output of App.cpp lines 133-207: only the index loop prints. -/
def installRestLog (env : Env) (res : ResourceData) : List LogMsg :=
  match res.metaAttrInfo.join with
  | some msg => indexLoopLog env msg
  | none => []

/-- App.cpp lines 129-209: load `META:S:DESC` (absence returns `B_ERROR`,
lines 130-132), then perform the field writes and index maintenance; the
function then returns the literal `B_OK` (line 209). -/
def installRest (env : Env) (res : ResourceData) (mime : String) : Out :=
  { status := match res.metaSDesc with | none => B_ERROR | some _ => B_OK
  , events := match res.metaSDesc with
              | none => []
              | some s => installRestEvents res mime s
  , log := match res.metaSDesc with
           | none => []
           | some _ => installRestLog env res }

/-- `InstallMimeTypeFromResource` (App.cpp lines 87-210).  The local variable
`result` holds the `InitCheck` status from line 94 when line 115 returns it:
the invalid-type branch therefore returns `env.initCheck`, which is `B_OK`
whenever that branch is reached. -/
def InstallMimeTypeFromResource (env : Env) (res : ResourceData) (path : String) : Out :=
  if env.fileReadable = false then
    { status := B_ERROR, events := [], log := [LogMsg.cannotReadResources path] }
  else if env.initCheck ≠ B_OK then
    { status := env.initCheck, events := [], log := [LogMsg.errorInitResources path env.initCheck] }
  else
    match res.metaType with
    | none => { status := B_ERROR, events := [], log := [] }
    | some mime =>
      if env.isValid mime = false then
        -- line 115 returns the stale `result`, still holding the B_OK InitCheck status
        { status := env.initCheck, events := []
        , log := [LogMsg.invalidMimeType mime path env.initCheck] }
      else if env.isInstalled mime then
        { status := (installRest env res mime).status
        , events := (installRest env res mime).events
        , log := LogMsg.alreadyInstalledUpdating mime :: (installRest env res mime).log }
      else if env.installResult mime ≠ B_OK then
        { status := env.installResult mime, events := [Event.install mime]
        , log := [LogMsg.errorInstalling mime path (env.installResult mime)] }
      else
        { status := (installRest env res mime).status
        , events := Event.install mime :: (installRest env res mime).events
        , log := (installRest env res mime).log }

/-- `DeleteMimeType` (App.cpp lines 212-225).  On an invalid type string the
function returns the uninitialized local `result` (line 218), modelled by
`env.uninitDeleteStatus`; otherwise it warns if the type is not installed
(lines 220-222) and unconditionally returns `mimeType.Delete()` (line 224). -/
def DeleteMimeType (env : Env) (t : String) : Out :=
  if env.isValid t = false then
    { status := env.uninitDeleteStatus, events := [], log := [LogMsg.notValidType t] }
  else
    { status := env.deleteResult t
    , events := [Event.delete t]
    , log := if env.isInstalled t = false then [LogMsg.notInstalledSkipping t] else [] }

/-- `GetInstalledMimeTypes` (App.cpp lines 227-231) forwards
`BMimeType::GetInstalledTypes`. -/
def GetInstalledMimeTypes (env : Env) (supertype : String) : Int :=
  env.getInstalledTypes supertype

/-- The command dispatch test `strncmp(command, pat, strlen(pat)) == 0`
(App.cpp lines 34, 42, 50): the pattern is a prefix of the command. -/
def cmdMatches (command pat : String) : Bool :=
  pat.data.isPrefixOf command.data

/-- `main` (App.cpp lines 25-73), returning the process exit status and the
console output.  In the `list` branch the `result` set by the "entity" query
(line 52) is overwritten by the "relation" query (line 60) before the final
`return result == B_OK ? EXIT_SUCCESS : EXIT_FAILURE` (line 72). -/
def mainRun (env : Env) (res : ResourceData) (argv : List String) : Int × List LogMsg :=
  match argv with
  | [] => (EXIT_FAILURE, [LogMsg.usage])
  | [_] => (EXIT_FAILURE, [LogMsg.usage])
  | _ :: command :: rest =>
    let arg := rest.headD ""
    if cmdMatches command "install" then
      let o := InstallMimeTypeFromResource env res arg
      (if o.status = B_OK then EXIT_SUCCESS else EXIT_FAILURE,
       o.log ++ (if o.status = B_OK then [LogMsg.successfullyInstalled arg]
                 else [LogMsg.failedToInstall arg o.status]))
    else if cmdMatches command "uninstall" then
      let o := DeleteMimeType env arg
      (if o.status = B_OK then EXIT_SUCCESS else EXIT_FAILURE,
       o.log ++ (if o.status = B_OK then [LogMsg.successfullyUninstalled arg]
                 else [LogMsg.failedToUninstall arg o.status]))
    else if cmdMatches command "list" then
      let r1 := GetInstalledMimeTypes env "entity"
      let r2 := GetInstalledMimeTypes env "relation"
      (if r2 = B_OK then EXIT_SUCCESS else EXIT_FAILURE,
       (if r1 = B_OK then [] else [LogMsg.failedToQueryDB r1])
         ++ [LogMsg.installedEntities]
         ++ (if r2 = B_OK then [] else [LogMsg.failedToQueryDB r2])
         ++ [LogMsg.installedRelations])
    else
      (EXIT_FAILURE, [LogMsg.unknownCommand command])

/-- Test environment: every external call succeeds, every type string is
valid, no type is installed yet. -/
def envOkBase : Env :=
  { fileReadable := true
  , initCheck := B_OK
  , isValid := fun _ => true
  , isInstalled := fun _ => false
  , installResult := fun _ => B_OK
  , setShortDescResult := fun _ _ => B_OK
  , setLongDescResult := fun _ _ => B_OK
  , setPreferredAppResult := fun _ _ => B_OK
  , setSnifferRuleResult := fun _ _ => B_OK
  , setFileExtensionsResult := fun _ => B_OK
  , setAttrInfoResult := fun _ => B_OK
  , setIconResult := fun _ => B_OK
  , createIndexResult := fun _ _ => (B_OK, B_OK)
  , removeIndexResult := fun _ => (B_OK, B_OK)
  , deleteResult := fun _ => B_OK
  , uninitDeleteStatus := B_OK
  , getInstalledTypes := fun _ => B_OK }

/-- Test environment in which `BMimeType::IsValid` rejects every string. -/
def envInvalidType : Env := { envOkBase with isValid := fun _ => false }

/-- Test environment in which `SetShortDescription` fails. -/
def envSDescFails : Env := { envOkBase with setShortDescResult := fun _ _ => B_ERROR }

/-- Test environment in which every type is already installed. -/
def envInstalled : Env := { envOkBase with isInstalled := fun _ => true }

/-- Test environment for deletion: the type is valid and not installed, and the
registry's `Delete` fails with `B_ENTRY_NOT_FOUND`, as Haiku's registrar does
for an absent MIME DB entry. -/
def envDeleteMissing : Env :=
  { envOkBase with deleteResult := fun _ => B_ENTRY_NOT_FOUND }

/-- Test environment in which the "entity" supertype query fails while the
"relation" one succeeds. -/
def envListEntityFails : Env :=
  { envOkBase with getInstalledTypes := fun s => if s = "entity" then B_ERROR else B_OK }

/-- Empty resource container. -/
def resEmpty : ResourceData :=
  { metaType := none, metaSDesc := none, metaLDesc := none, metaPrefApp := none
  , metaSniffRule := none, metaExtens := none, metaAttrInfo := none, metaIcon := none }

/-- Minimal container: type and short description only. -/
def resMinimal : ResourceData :=
  { resEmpty with metaType := some "text/x-note", metaSDesc := some "Note" }

/-- Container with a type but no `META:S:DESC` resource. -/
def resNoSDesc : ResourceData := { resEmpty with metaType := some "text/x-note" }

/-- Container with a (syntactically invalid) type and no `META:S:DESC`. -/
def resBadTypeNoSDesc : ResourceData := { resEmpty with metaType := some "bad" }

/-- Container with every field present, including a searchable attribute and a
non-empty icon. -/
def resFull : ResourceData :=
  { metaType := some "application/x-sen-note"
  , metaSDesc := some "SEN Note"
  , metaLDesc := some "A note of the SEN system"
  , metaPrefApp := some "application/x-vnd.sen-editor"
  , metaSniffRule := some "0.30 AAAA"
  , metaExtens := some (some ["note"])
  , metaAttrInfo := some (some (AttrMsg.ofSpecs
      [ { name := "attr:title", publicName := "Title"
        , attrType := B_STRING_TYPE, searchable := some true } ]))
  , metaIcon := some [1, 2, 3] }

/-- Attribute schema whose first entry has no explicit searchable flag while
the second entry is searchable: the per-name BMessage arrays misalign. -/
def specsMisaligned : List AttributeSpec :=
  [ { name := "attr:plain", publicName := "Plain"
    , attrType := B_STRING_TYPE, searchable := none }
  , { name := "attr:title", publicName := "Title"
    , attrType := B_STRING_TYPE, searchable := some true } ]

/-- Container carrying the misaligned attribute schema. -/
def resMisaligned : ResourceData :=
  { resEmpty with
      metaType := some "application/x-sen-note"
    , metaSDesc := some "SEN Note"
    , metaAttrInfo := some (some (AttrMsg.ofSpecs specsMisaligned)) }

/-- Claim C1: on a container whose `META:TYPE` is not a valid MIME type string
the install operation is supposed to return a non-success status.  The code
prints the invalid-type error but then returns the stale `result` variable,
which still holds the successful `InitCheck` status: the operation returns
`B_OK`.  It does, however, stop before registering the type or writing any
field (no events). -/
theorem c1_invalid_type_returns_b_ok :
    InstallMimeTypeFromResource envInvalidType resMinimal "app.rsrc" =
      { status := B_OK, events := []
      , log := [LogMsg.invalidMimeType "text/x-note" "app.rsrc" B_OK] } := by
  rfl

/-- Claim C2 counterexample: an import in which the short-description write
fails (the registry reports `B_ERROR` for it) still returns `B_OK` — the
result of `SetShortDescription` is discarded at App.cpp line 133, so the
failure does not propagate. -/
theorem c2_counterexample :
    envSDescFails.setShortDescResult "text/x-note" "Note" = B_ERROR ∧
    (InstallMimeTypeFromResource envSDescFails resMinimal "app.rsrc").events =
      [ Event.install "text/x-note"
      , Event.setShortDescription "text/x-note" "Note" ] ∧
    (InstallMimeTypeFromResource envSDescFails resMinimal "app.rsrc").status = B_OK :=
  ⟨rfl, rfl, rfl⟩

/-- Claim C3: deleting a valid type that is not installed prints the
"not installed, skipping" notice but then still calls `Delete` and returns its
status unchanged; with a registry whose `Delete` fails with
`B_ENTRY_NOT_FOUND` for an absent entry (Haiku's behaviour) the operation
returns that fatal error instead of `B_OK`. -/
theorem c3_delete_not_installed_propagates_error :
    DeleteMimeType envDeleteMissing "text/x-foo" =
      { status := B_ENTRY_NOT_FOUND, events := [Event.delete "text/x-foo"]
      , log := [LogMsg.notInstalledSkipping "text/x-foo"] } ∧
    B_ENTRY_NOT_FOUND ≠ B_OK :=
  ⟨rfl, by decide⟩

/-- Claim C4 counterexample: in the `list` branch the status of the "entity"
query is overwritten by the "relation" query, so a failed entity registry
query still exits with `EXIT_SUCCESS`. -/
theorem c4_counterexample :
    GetInstalledMimeTypes envListEntityFails "entity" ≠ B_OK ∧
    (mainRun envListEntityFails resEmpty ["mime", "list"]).1 = EXIT_SUCCESS ∧
    (mainRun envListEntityFails resEmpty ["mime", "list"]).2 =
      [ LogMsg.failedToQueryDB B_ERROR, LogMsg.installedEntities
      , LogMsg.installedRelations ] :=
  ⟨by decide, rfl, rfl⟩

/-- Claim C5: with a schema whose first entry carries no explicit
`attr:searchable` flag and whose second entry is searchable, the loop iterates
over the indices of the `attr:searchable` array but reads `attr:name` and
`attr:type` at those indices: the single index operation is a creation for
the flagless first entry's name `attr:plain`, and no operation at all is
performed with the flagged entry's name `attr:title`. -/
theorem c5_misaligned_index_operation :
    (InstallMimeTypeFromResource envOkBase resMisaligned "app.rsrc").events =
      [ Event.install "application/x-sen-note"
      , Event.setShortDescription "application/x-sen-note" "SEN Note"
      , Event.setAttrInfo "application/x-sen-note"
      , Event.createIndex "attr:plain" B_STRING_TYPE ] ∧
    Event.createIndex "attr:title" B_STRING_TYPE ∉
      (InstallMimeTypeFromResource envOkBase resMisaligned "app.rsrc").events := by
  refine ⟨rfl, ?_⟩
  intro h
  rw [show (InstallMimeTypeFromResource envOkBase resMisaligned "app.rsrc").events =
      [ Event.install "application/x-sen-note"
      , Event.setShortDescription "application/x-sen-note" "SEN Note"
      , Event.setAttrInfo "application/x-sen-note"
      , Event.createIndex "attr:plain" B_STRING_TYPE ] from rfl] at h
  simp [List.mem_cons] at h

/-- Claim C7 counterexample: a container that is missing the required
`META:S:DESC` field but whose `META:TYPE` is present and invalid returns
`B_OK` (through the stale-result slip of the invalid-type branch) instead of a
fatal failure. -/
theorem c7_counterexample :
    resBadTypeNoSDesc.metaSDesc = none ∧
    (InstallMimeTypeFromResource envInvalidType resBadTypeNoSDesc "app.rsrc").status = B_OK :=
  ⟨rfl, rfl⟩

/-- Membership in the event list of an optional field. -/
theorem mem_optEvent {α : Type} {o : Option α} {f : α → Event} {e : Event} :
    e ∈ optEvent o f ↔ ∃ x, o = some x ∧ e = f x := by
  cases o <;> simp [optEvent]

/-- Every event of one index-loop iteration is an index operation. -/
theorem indexStepEvents_shape (msg : AttrMsg) (i : Nat) :
    ∀ e ∈ indexStepEvents msg i, e.isIndexOp = true := by
  intro e he
  simp only [indexStepEvents] at he
  split_ifs at he <;> simp only [List.mem_singleton, List.not_mem_nil] at he
  · subst he; rfl
  · subst he; rfl

/-- Every event the index loop emits is an index operation. -/
theorem indexLoopEvents_shape (msg : AttrMsg) :
    ∀ e ∈ indexLoopEvents msg, e.isIndexOp = true := by
  intro e he
  simp only [indexLoopEvents, List.mem_flatten, List.mem_map] at he
  obtain ⟨l, ⟨i, _, rfl⟩, hel⟩ := he
  exact indexStepEvents_shape msg i e hel

/-- Within the loop bound, each iteration performs exactly one index call. -/
theorem indexStepEvents_length (msg : AttrMsg) (i : Nat)
    (h : i < msg.searchable.length) :
    (indexStepEvents msg i).length = 1 := by
  simp only [indexStepEvents]
  rw [if_pos h]
  split <;> rfl

/-- Flattening a map whose pieces all have length one preserves the length. -/
theorem flatten_map_length_one {α : Type} (f : Nat → List α) :
    ∀ l : List Nat, (∀ i ∈ l, (f i).length = 1) →
      ((l.map f).flatten).length = l.length := by
  intro l
  induction l with
  | nil => intro _; rfl
  | cons a t ih =>
    intro h
    simp only [List.map_cons, List.flatten_cons, List.length_append, List.length_cons]
    rw [h a (List.mem_cons_self a t), ih (fun i hi => h i (List.mem_cons_of_mem a hi))]
    omega

/-- The index loop performs exactly one index call per `attr:searchable`
entry, whatever the outcomes of the individual calls are. -/
theorem indexLoopEvents_length (msg : AttrMsg) :
    (indexLoopEvents msg).length = msg.searchable.length := by
  simp only [indexLoopEvents]
  rw [flatten_map_length_one (indexStepEvents msg) (List.range msg.searchable.length)
      (fun i hi => indexStepEvents_length msg i (List.mem_range.mp hi))]
  exact List.length_range msg.searchable.length

/-- Membership in the event list of the attribute-info block. -/
theorem mem_attrEvents {o : Option AttrMsg} {mime : String} {e : Event} :
    e ∈ attrEvents o mime ↔
      ∃ msg, o = some msg ∧ (e = Event.setAttrInfo mime ∨ e ∈ indexLoopEvents msg) := by
  cases o <;> simp [attrEvents]

/-- Membership in the event list of the icon block. -/
theorem mem_iconEvents {o : Option (List Nat)} {mime : String} {e : Event} :
    e ∈ iconEvents o mime ↔
      ∃ bytes, o = some bytes ∧ 0 < bytes.length ∧ e = Event.setIcon mime bytes := by
  cases o with
  | none => simp [iconEvents]
  | some bytes => by_cases hl : 0 < bytes.length <;> simp [iconEvents, hl]

/-- Every event emitted after the install step is a registry field write or an
index operation — in particular never an `Install` call. -/
theorem installRestEvents_shape (res : ResourceData) (mime sDesc : String) :
    ∀ e ∈ installRestEvents res mime sDesc,
      e.isFieldWrite = true ∨ e.isIndexOp = true := by
  intro e he
  simp only [installRestEvents, List.mem_append] at he
  rcases he with ((((((h | h) | h) | h) | h) | h) | h)
  · simp only [List.mem_singleton] at h; subst h; left; rfl
  · obtain ⟨x, _, rfl⟩ := mem_optEvent.mp h; left; rfl
  · obtain ⟨x, _, rfl⟩ := mem_optEvent.mp h; left; rfl
  · obtain ⟨x, _, rfl⟩ := mem_optEvent.mp h; left; rfl
  · obtain ⟨x, _, rfl⟩ := mem_optEvent.mp h; left; rfl
  · obtain ⟨msg, _, hor⟩ := mem_attrEvents.mp h
    rcases hor with rfl | h2
    · left; rfl
    · right; exact indexLoopEvents_shape msg e h2
  · obtain ⟨bs, _, _, rfl⟩ := mem_iconEvents.mp h; left; rfl

/-- A field write or index operation is not an `Install` call. -/
theorem not_installCall_of_shape {e : Event}
    (h : e.isFieldWrite = true ∨ e.isIndexOp = true) :
    e.isInstallCall = false := by
  cases e <;> simp_all [Event.isFieldWrite, Event.isIndexOp, Event.isInstallCall]

/-- An icon write emitted after the install step can only come from the icon
block: the icon resource was present, non-empty, and carries exactly the
written bytes. -/
theorem setIcon_mem_installRestEvents {res : ResourceData} {mime sDesc t : String}
    {bytes : List Nat}
    (h : Event.setIcon t bytes ∈ installRestEvents res mime sDesc) :
    res.metaIcon = some bytes ∧ 0 < bytes.length ∧ t = mime := by
  simp only [installRestEvents, List.mem_append] at h
  rcases h with ((((((h | h) | h) | h) | h) | h) | h)
  · simp at h
  · obtain ⟨x, _, hx⟩ := mem_optEvent.mp h; simp at hx
  · obtain ⟨x, _, hx⟩ := mem_optEvent.mp h; simp at hx
  · obtain ⟨x, _, hx⟩ := mem_optEvent.mp h; simp at hx
  · obtain ⟨x, _, hx⟩ := mem_optEvent.mp h; simp at hx
  · obtain ⟨msg, _, hor⟩ := mem_attrEvents.mp h
    rcases hor with he | h2
    · simp at he
    · have := indexLoopEvents_shape msg _ h2
      simp [Event.isIndexOp] at this
  · obtain ⟨bs, hj, hl, he⟩ := mem_iconEvents.mp h
    simp only [Event.setIcon.injEq] at he
    obtain ⟨ht, hb⟩ := he
    subst ht; subst hb
    exact ⟨hj, hl, rfl⟩

/-- Run of the import when the container file is not readable. -/
theorem install_run_unreadable (env : Env) (res : ResourceData) (path : String)
    (h1 : env.fileReadable = false) :
    InstallMimeTypeFromResource env res path =
      { status := B_ERROR, events := [], log := [LogMsg.cannotReadResources path] } := by
  unfold InstallMimeTypeFromResource
  simp [h1]

/-- Run of the import when the resource reader's `InitCheck` fails. -/
theorem install_run_init_fail (env : Env) (res : ResourceData) (path : String)
    (h1 : env.fileReadable = true) (h2 : env.initCheck ≠ B_OK) :
    InstallMimeTypeFromResource env res path =
      { status := env.initCheck, events := []
      , log := [LogMsg.errorInitResources path env.initCheck] } := by
  unfold InstallMimeTypeFromResource
  simp [h1, h2]

/-- Run of the import when the type is present, valid and already installed:
no `Install` call, the record's fields are updated. -/
theorem install_run_installed (env : Env) (res : ResourceData) (path mime : String)
    (h1 : env.fileReadable = true) (h2 : env.initCheck = B_OK)
    (h3 : res.metaType = some mime) (h4 : env.isValid mime = true)
    (h5 : env.isInstalled mime = true) :
    InstallMimeTypeFromResource env res path =
      { status := (installRest env res mime).status
      , events := (installRest env res mime).events
      , log := LogMsg.alreadyInstalledUpdating mime :: (installRest env res mime).log } := by
  unfold InstallMimeTypeFromResource
  rw [h3]
  simp [h1, h2, h4, h5]

/-- Run of the import when the type is present, valid, not installed, and the
`Install` call succeeds. -/
theorem install_run_fresh (env : Env) (res : ResourceData) (path mime : String)
    (h1 : env.fileReadable = true) (h2 : env.initCheck = B_OK)
    (h3 : res.metaType = some mime) (h4 : env.isValid mime = true)
    (h5 : env.isInstalled mime = false) (h6 : env.installResult mime = B_OK) :
    InstallMimeTypeFromResource env res path =
      { status := (installRest env res mime).status
      , events := Event.install mime :: (installRest env res mime).events
      , log := (installRest env res mime).log } := by
  unfold InstallMimeTypeFromResource
  rw [h3]
  simp [h1, h2, h4, h5, h6]

/-- Run of the import when the type is present, valid, not installed, and the
`Install` call fails: its status is returned and nothing further happens. -/
theorem install_run_fresh_fail (env : Env) (res : ResourceData) (path mime : String)
    (h1 : env.fileReadable = true) (h2 : env.initCheck = B_OK)
    (h3 : res.metaType = some mime) (h4 : env.isValid mime = true)
    (h5 : env.isInstalled mime = false) (h6 : env.installResult mime ≠ B_OK) :
    InstallMimeTypeFromResource env res path =
      { status := env.installResult mime, events := [Event.install mime]
      , log := [LogMsg.errorInstalling mime path (env.installResult mime)] } := by
  unfold InstallMimeTypeFromResource
  rw [h3]
  simp [h1, h2, h4, h5, h6]

/-- Run of the import when the `META:TYPE` resource is missing: `B_ERROR`,
no call into the registry at all. -/
theorem install_run_no_type (env : Env) (res : ResourceData) (path : String)
    (h1 : env.fileReadable = true) (h2 : env.initCheck = B_OK)
    (h3 : res.metaType = none) :
    InstallMimeTypeFromResource env res path =
      { status := B_ERROR, events := [], log := [] } := by
  unfold InstallMimeTypeFromResource
  rw [h3]
  simp [h1, h2]

/-- Run of the import when the type is present but invalid: the stale `result`
variable — holding the successful `InitCheck` status `B_OK` — is returned. -/
theorem install_run_invalid (env : Env) (res : ResourceData) (path mime : String)
    (h1 : env.fileReadable = true) (h2 : env.initCheck = B_OK)
    (h3 : res.metaType = some mime) (h4 : env.isValid mime = false) :
    InstallMimeTypeFromResource env res path =
      { status := B_OK, events := []
      , log := [LogMsg.invalidMimeType mime path B_OK] } := by
  unfold InstallMimeTypeFromResource
  rw [h3]
  simp [h1, h2, h4]

/-- The import never consults the result of any `Set...` field write: changing
all of them changes nothing of the output (status, calls, console output). -/
theorem install_ignores_setter_results (env : Env) (res : ResourceData) (path : String)
    (f0 f1 f2 f3 : String → String → Int) (f4 f5 f6 : String → Int) :
    InstallMimeTypeFromResource
      { env with setShortDescResult := f0, setLongDescResult := f1
               , setPreferredAppResult := f2, setSnifferRuleResult := f3
               , setFileExtensionsResult := f4, setAttrInfoResult := f5
               , setIconResult := f6 } res path
      = InstallMimeTypeFromResource env res path := by
  cases env
  rfl

/-- The status and the call trace of the import do not depend on the outcomes
of the index operations (only the console output does). -/
theorem install_status_events_ignore_index_results (env : Env) (res : ResourceData)
    (path : String) (f : String → Nat → Int × Int) (g : String → Int × Int) :
    (InstallMimeTypeFromResource
        { env with createIndexResult := f, removeIndexResult := g } res path).status
      = (InstallMimeTypeFromResource env res path).status ∧
    (InstallMimeTypeFromResource
        { env with createIndexResult := f, removeIndexResult := g } res path).events
      = (InstallMimeTypeFromResource env res path).events := by
  by_cases h1 : env.fileReadable = true
  case neg =>
    rw [Bool.not_eq_true] at h1
    rw [install_run_unreadable env res path h1,
        install_run_unreadable
          { env with createIndexResult := f, removeIndexResult := g } res path h1]
    exact ⟨rfl, rfl⟩
  case pos =>
    by_cases h2 : env.initCheck = B_OK
    case neg =>
      rw [install_run_init_fail env res path h1 h2,
          install_run_init_fail
            { env with createIndexResult := f, removeIndexResult := g } res path h1 h2]
      exact ⟨rfl, rfl⟩
    case pos =>
      cases h3 : res.metaType with
      | none =>
        rw [install_run_no_type env res path h1 h2 h3,
            install_run_no_type
              { env with createIndexResult := f, removeIndexResult := g } res path h1 h2 h3]
        exact ⟨rfl, rfl⟩
      | some mime =>
        by_cases h4 : env.isValid mime = true
        case neg =>
          rw [Bool.not_eq_true] at h4
          rw [install_run_invalid env res path mime h1 h2 h3 h4,
              install_run_invalid
                { env with createIndexResult := f, removeIndexResult := g } res path mime h1 h2 h3 h4]
          exact ⟨rfl, rfl⟩
        case pos =>
          by_cases h5 : env.isInstalled mime = true
          case pos =>
            rw [install_run_installed env res path mime h1 h2 h3 h4 h5,
                install_run_installed
                  { env with createIndexResult := f, removeIndexResult := g } res path mime h1 h2 h3 h4 h5]
            exact ⟨rfl, rfl⟩
          case neg =>
            rw [Bool.not_eq_true] at h5
            by_cases h6 : env.installResult mime = B_OK
            · rw [install_run_fresh env res path mime h1 h2 h3 h4 h5 h6,
                  install_run_fresh
                    { env with createIndexResult := f, removeIndexResult := g } res path mime h1 h2 h3 h4 h5 h6]
              exact ⟨rfl, rfl⟩
            · rw [install_run_fresh_fail env res path mime h1 h2 h3 h4 h5 h6,
                  install_run_fresh_fail
                    { env with createIndexResult := f, removeIndexResult := g } res path mime h1 h2 h3 h4 h5 h6]
              exact ⟨rfl, rfl⟩

/-- Claim C2 (amended): the result of `SetShortDescription` is discarded, so a
failing short-description write never changes the import's outcome; the
operation fails at this step only when the `META:S:DESC` resource itself is
missing (then `B_ERROR`), and when the resource is present the write is
attempted and the operation returns `B_OK` regardless of the write's result. -/
theorem c2_short_desc_result_ignored (env : Env) (res : ResourceData) (path : String)
    (f : String → String → Int) :
    InstallMimeTypeFromResource { env with setShortDescResult := f } res path
      = InstallMimeTypeFromResource env res path ∧
    (∀ mime, env.fileReadable = true → env.initCheck = B_OK →
      res.metaType = some mime → env.isValid mime = true →
      (env.isInstalled mime = true ∨ env.installResult mime = B_OK) →
      ((res.metaSDesc = none →
          (InstallMimeTypeFromResource env res path).status = B_ERROR) ∧
       (∀ s, res.metaSDesc = some s →
          Event.setShortDescription mime s ∈ (InstallMimeTypeFromResource env res path).events ∧
          (InstallMimeTypeFromResource env res path).status = B_OK))) := by
  constructor
  · exact install_ignores_setter_results env res path f env.setLongDescResult
      env.setPreferredAppResult env.setSnifferRuleResult env.setFileExtensionsResult
      env.setAttrInfoResult env.setIconResult
  · intro mime h1 h2 h3 h4 h5
    by_cases hI : env.isInstalled mime = true
    case pos =>
      rw [install_run_installed env res path mime h1 h2 h3 h4 hI]
      constructor
      · intro hsd
        simp [installRest, hsd]
      · intro s hs
        constructor
        · simp [installRest, hs, installRestEvents]
        · simp [installRest, hs]
    case neg =>
      rw [Bool.not_eq_true] at hI
      have h6 : env.installResult mime = B_OK := by
        rcases h5 with h5 | h5
        · simp [h5] at hI
        · exact h5
      rw [install_run_fresh env res path mime h1 h2 h3 h4 hI h6]
      constructor
      · intro hsd
        simp [installRest, hsd]
      · intro s hs
        constructor
        · simp [installRest, hs, installRestEvents]
        · simp [installRest, hs]

/-- Claim C2 witness: with an environment whose short-description write fails,
the reached import still returns `B_OK`. -/
theorem c2_short_desc_result_ignored_witness :
    (InstallMimeTypeFromResource envOkBase resMinimal "app.rsrc").status = B_OK :=
  (((c2_short_desc_result_ignored envOkBase resMinimal "app.rsrc"
      (fun _ _ => B_ERROR)).2 "text/x-note" rfl rfl rfl rfl (Or.inr rfl)).2
    "Note" rfl).2

/-- Claim C4 (amended): `main` exits with `EXIT_FAILURE` when invoked with no
arguments, and otherwise the exit status mirrors the dispatched operation's
final status, commands being matched by prefix; in the `list` branch the
"entity" query's status is overwritten by the "relation" query, so only the
latter determines the exit status; an unmatched command exits with
`EXIT_FAILURE`. -/
theorem c4_exit_code_characterization (env : Env) (res : ResourceData)
    (prog command : String) (rest : List String) :
    (mainRun env res [prog]).1 = EXIT_FAILURE ∧
    (cmdMatches command "install" = true →
      (mainRun env res (prog :: command :: rest)).1 =
        (if (InstallMimeTypeFromResource env res (rest.headD "")).status = B_OK
         then EXIT_SUCCESS else EXIT_FAILURE)) ∧
    (cmdMatches command "install" = false → cmdMatches command "uninstall" = true →
      (mainRun env res (prog :: command :: rest)).1 =
        (if (DeleteMimeType env (rest.headD "")).status = B_OK
         then EXIT_SUCCESS else EXIT_FAILURE)) ∧
    (cmdMatches command "install" = false → cmdMatches command "uninstall" = false →
      cmdMatches command "list" = true →
      (mainRun env res (prog :: command :: rest)).1 =
        (if GetInstalledMimeTypes env "relation" = B_OK
         then EXIT_SUCCESS else EXIT_FAILURE)) ∧
    (cmdMatches command "install" = false → cmdMatches command "uninstall" = false →
      cmdMatches command "list" = false →
      (mainRun env res (prog :: command :: rest)).1 = EXIT_FAILURE) := by
  refine ⟨rfl, ?_, ?_, ?_, ?_⟩
  · intro hI
    simp [mainRun, hI]
  · intro hI hU
    simp [mainRun, hI, hU]
  · intro hI hU hL
    simp [mainRun, hI, hU, hL]
  · intro hI hU hL
    simp [mainRun, hI, hU, hL]

/-- Claim C4 witness: an unmatched command exits with `EXIT_FAILURE`. -/
theorem c4_exit_code_characterization_witness :
    (mainRun envOkBase resEmpty ["mime", "badcmd"]).1 = EXIT_FAILURE :=
  (c4_exit_code_characterization envOkBase resEmpty "mime" "badcmd" []).2.2.2.2
    (by decide) (by decide) (by decide)

/-- Claim C6: an index outcome of "already exists" on create or "not found" on
remove is reported as a skip; no index outcome aborts the per-attribute loop
(one index call per flag entry, always) or affects the import's status or
call trace. -/
theorem c6_index_outcomes_do_not_affect_result (env : Env) (res : ResourceData)
    (path : String) (f : String → Nat → Int × Int) (g : String → Int × Int) :
    ((InstallMimeTypeFromResource
          { env with createIndexResult := f, removeIndexResult := g } res path).status
        = (InstallMimeTypeFromResource env res path).status ∧
      (InstallMimeTypeFromResource
          { env with createIndexResult := f, removeIndexResult := g } res path).events
        = (InstallMimeTypeFromResource env res path).events) ∧
    (∀ r : Int, r ≠ B_OK →
      fsIndexOutcomeLog r B_FILE_EXISTS = [LogMsg.indexExistsSkipping]) ∧
    (∀ r : Int, r ≠ B_OK →
      fsIndexOutcomeLog r B_ENTRY_NOT_FOUND = [LogMsg.indexNotFoundSkipping]) ∧
    (∀ msg : AttrMsg, (indexLoopEvents msg).length = msg.searchable.length) := by
  refine ⟨install_status_events_ignore_index_results env res path f g, ?_, ?_,
    indexLoopEvents_length⟩
  · intro r hr
    unfold fsIndexOutcomeLog
    rw [if_neg hr, if_pos rfl]
  · intro r hr
    unfold fsIndexOutcomeLog
    rw [if_neg hr, if_neg (by decide), if_pos rfl]

/-- Claim C6 witness: a failing create whose errno is `B_FILE_EXISTS` is
logged as "EXISTS, skipping". -/
theorem c6_index_outcomes_do_not_affect_result_witness :
    fsIndexOutcomeLog B_ERROR B_FILE_EXISTS = [LogMsg.indexExistsSkipping] :=
  (c6_index_outcomes_do_not_affect_result envOkBase resEmpty "app.rsrc"
    (fun _ _ => (B_OK, B_OK)) (fun _ => (B_OK, B_OK))).2.1 B_ERROR (by decide)

/-- Claim C7 (amended): a missing `META:TYPE` yields `B_ERROR` with no
registry call at all; with a present and valid type, a missing `META:S:DESC`
yields a fatal status (either the install error or `B_ERROR`) and no field
write is performed beyond the installation step itself.  (When the type is
present but invalid, the stale-result slip of C1 makes the operation return
`B_OK` instead — still without any write.) -/
theorem c7_missing_required_fields (env : Env) (res : ResourceData) (path : String) :
    (env.fileReadable = true → env.initCheck = B_OK → res.metaType = none →
      InstallMimeTypeFromResource env res path =
        { status := B_ERROR, events := [], log := [] }) ∧
    (∀ mime, env.fileReadable = true → env.initCheck = B_OK →
      res.metaType = some mime → env.isValid mime = true → res.metaSDesc = none →
      (InstallMimeTypeFromResource env res path).status ≠ B_OK ∧
      ∀ e ∈ (InstallMimeTypeFromResource env res path).events, e.isFieldWrite = false) := by
  constructor
  · exact fun h1 h2 h3 => install_run_no_type env res path h1 h2 h3
  · intro mime h1 h2 h3 h4 hsd
    by_cases hI : env.isInstalled mime = true
    case pos =>
      rw [install_run_installed env res path mime h1 h2 h3 h4 hI]
      constructor
      · simp only [installRest, hsd]
        decide
      · simp [installRest, hsd]
    case neg =>
      rw [Bool.not_eq_true] at hI
      by_cases h6 : env.installResult mime = B_OK
      · rw [install_run_fresh env res path mime h1 h2 h3 h4 hI h6]
        constructor
        · simp only [installRest, hsd]
          decide
        · simp only [installRest, hsd]
          intro e he
          simp only [List.mem_cons, List.not_mem_nil, or_false] at he
          subst he
          rfl
      · rw [install_run_fresh_fail env res path mime h1 h2 h3 h4 hI h6]
        constructor
        · simpa using h6
        · intro e he
          simp only [List.mem_singleton] at he
          subst he
          rfl

/-- Claim C7 witness: with a valid, not-yet-installed type and no
`META:S:DESC` resource, the import fails. -/
theorem c7_missing_required_fields_witness :
    (InstallMimeTypeFromResource envOkBase resNoSDesc "app.rsrc").status ≠ B_OK :=
  ((c7_missing_required_fields envOkBase resNoSDesc "app.rsrc").2
    "text/x-note" rfl rfl rfl rfl rfl).1

/-- Claim C8: for a present, valid type: if it is not installed, `Install` is
called, and a failing `Install` aborts the import with that failure; if it is
already installed, no `Install` call is made and the run proceeds as an update
of the existing record's fields behind the "already installed, updating"
notice. -/
theorem c8_install_vs_update (env : Env) (res : ResourceData) (path mime : String)
    (h1 : env.fileReadable = true) (h2 : env.initCheck = B_OK)
    (h3 : res.metaType = some mime) (h4 : env.isValid mime = true) :
    (env.isInstalled mime = false →
      (Event.install mime ∈ (InstallMimeTypeFromResource env res path).events ∧
       (env.installResult mime ≠ B_OK →
         InstallMimeTypeFromResource env res path =
           { status := env.installResult mime, events := [Event.install mime]
           , log := [LogMsg.errorInstalling mime path (env.installResult mime)] }))) ∧
    (env.isInstalled mime = true →
      ((∀ e ∈ (InstallMimeTypeFromResource env res path).events, e.isInstallCall = false) ∧
       InstallMimeTypeFromResource env res path =
         { status := (installRest env res mime).status
         , events := (installRest env res mime).events
         , log := LogMsg.alreadyInstalledUpdating mime :: (installRest env res mime).log })) := by
  constructor
  · intro h5
    constructor
    · by_cases h6 : env.installResult mime = B_OK
      · rw [install_run_fresh env res path mime h1 h2 h3 h4 h5 h6]
        simp
      · rw [install_run_fresh_fail env res path mime h1 h2 h3 h4 h5 h6]
        simp
    · intro h6
      exact install_run_fresh_fail env res path mime h1 h2 h3 h4 h5 h6
  · intro h5
    refine ⟨?_, install_run_installed env res path mime h1 h2 h3 h4 h5⟩
    intro e he
    rw [install_run_installed env res path mime h1 h2 h3 h4 h5] at he
    simp only [installRest] at he
    cases hsd : res.metaSDesc with
    | none =>
      rw [hsd] at he
      simp at he
    | some s =>
      rw [hsd] at he
      exact not_installCall_of_shape (installRestEvents_shape res mime s e he)

/-- Claim C8 witness: on a fresh install of a minimal container, the
`Install` call is in the trace. -/
theorem c8_install_vs_update_witness :
    Event.install "text/x-note" ∈
      (InstallMimeTypeFromResource envOkBase resMinimal "app.rsrc").events :=
  ((c8_install_vs_update envOkBase resMinimal "app.rsrc" "text/x-note"
      rfl rfl rfl rfl).1 rfl).1

/-- Claim C9: the import never consults the result of any optional-field
write (long description, preferred app, sniffer rule, extensions, attribute
schema, icon): changing all those results changes nothing of the output; and
under a reached update run every optional field present in the container is
written, whatever the other writes returned. -/
theorem c9_optional_failures_do_not_abort (env : Env) (res : ResourceData) (path : String)
    (f1 f2 f3 : String → String → Int) (f4 f5 f6 : String → Int) :
    InstallMimeTypeFromResource
        { env with setLongDescResult := f1, setPreferredAppResult := f2
                 , setSnifferRuleResult := f3, setFileExtensionsResult := f4
                 , setAttrInfoResult := f5, setIconResult := f6 } res path
      = InstallMimeTypeFromResource env res path ∧
    (∀ mime s, env.fileReadable = true → env.initCheck = B_OK →
      res.metaType = some mime → env.isValid mime = true →
      env.isInstalled mime = true → res.metaSDesc = some s →
      ((∀ l, res.metaLDesc = some l →
          Event.setLongDescription mime l ∈ (InstallMimeTypeFromResource env res path).events) ∧
       (∀ p, res.metaPrefApp = some p →
          Event.setPreferredApp mime p ∈ (InstallMimeTypeFromResource env res path).events) ∧
       (∀ r, res.metaSniffRule = some r →
          Event.setSnifferRule mime r ∈ (InstallMimeTypeFromResource env res path).events) ∧
       (∀ x, res.metaExtens = some (some x) →
          Event.setFileExtensions mime x ∈ (InstallMimeTypeFromResource env res path).events) ∧
       (∀ msg, res.metaAttrInfo = some (some msg) →
          Event.setAttrInfo mime ∈ (InstallMimeTypeFromResource env res path).events) ∧
       (∀ b, res.metaIcon = some b → 0 < b.length →
          Event.setIcon mime b ∈ (InstallMimeTypeFromResource env res path).events))) := by
  constructor
  · exact install_ignores_setter_results env res path env.setShortDescResult
      f1 f2 f3 f4 f5 f6
  · intro mime s h1 h2 h3 h4 h5 hsd
    rw [install_run_installed env res path mime h1 h2 h3 h4 h5]
    refine ⟨?_, ?_, ?_, ?_, ?_, ?_⟩
    · intro l hl
      simp [installRest, hsd, installRestEvents, optEvent, hl]
    · intro p hp
      simp [installRest, hsd, installRestEvents, optEvent, hp]
    · intro r hr
      simp [installRest, hsd, installRestEvents, optEvent, hr]
    · intro x hx
      simp [installRest, hsd, installRestEvents, optEvent, Option.join, hx]
    · intro msg hmsg
      simp [installRest, hsd, installRestEvents, attrEvents, Option.join, hmsg]
    · intro b hb hlen
      simp [installRest, hsd, installRestEvents, iconEvents, hb, hlen]

/-- Claim C9 witness: a failing long-description write environment still has
the long-description write in the trace of the full import. -/
theorem c9_optional_failures_do_not_abort_witness :
    Event.setLongDescription "application/x-sen-note" "A note of the SEN system" ∈
      (InstallMimeTypeFromResource envInstalled resFull "app.rsrc").events :=
  (((c9_optional_failures_do_not_abort envInstalled resFull "app.rsrc"
      (fun _ _ => B_ERROR) (fun _ _ => B_OK) (fun _ _ => B_OK)
      (fun _ => B_OK) (fun _ => B_OK) (fun _ => B_OK)).2
    "application/x-sen-note" "SEN Note" rfl rfl rfl rfl rfl rfl).1
    "A note of the SEN system" rfl)

/-- Claim C10: `SetIcon` is called exactly when the `META:ICON` resource is
present with a strictly positive loaded size, and then with exactly the loaded
bytes; in particular a zero-length icon resource is never written, leaving any
existing icon untouched. -/
theorem c10_icon_written_iff_nonempty (env : Env) (res : ResourceData) (path : String) :
    (∀ t bytes, Event.setIcon t bytes ∈ (InstallMimeTypeFromResource env res path).events →
      res.metaIcon = some bytes ∧ 0 < bytes.length) ∧
    (∀ mime s bytes, env.fileReadable = true → env.initCheck = B_OK →
      res.metaType = some mime → env.isValid mime = true → env.isInstalled mime = true →
      res.metaSDesc = some s → res.metaIcon = some bytes → 0 < bytes.length →
      Event.setIcon mime bytes ∈ (InstallMimeTypeFromResource env res path).events) := by
  constructor
  · intro t bytes hmem
    by_cases h1 : env.fileReadable = true
    case neg =>
      rw [Bool.not_eq_true] at h1
      rw [install_run_unreadable env res path h1] at hmem
      simp at hmem
    case pos =>
      by_cases h2 : env.initCheck = B_OK
      case neg =>
        rw [install_run_init_fail env res path h1 h2] at hmem
        simp at hmem
      case pos =>
        cases h3 : res.metaType with
        | none =>
          rw [install_run_no_type env res path h1 h2 h3] at hmem
          simp at hmem
        | some mime =>
          by_cases h4 : env.isValid mime = true
          case neg =>
            rw [Bool.not_eq_true] at h4
            rw [install_run_invalid env res path mime h1 h2 h3 h4] at hmem
            simp at hmem
          case pos =>
            by_cases h5 : env.isInstalled mime = true
            case pos =>
              rw [install_run_installed env res path mime h1 h2 h3 h4 h5] at hmem
              simp only [installRest] at hmem
              cases hsd : res.metaSDesc with
              | none =>
                rw [hsd] at hmem
                simp at hmem
              | some s =>
                rw [hsd] at hmem
                obtain ⟨ha, hb, _⟩ := setIcon_mem_installRestEvents hmem
                exact ⟨ha, hb⟩
            case neg =>
              rw [Bool.not_eq_true] at h5
              by_cases h6 : env.installResult mime = B_OK
              · rw [install_run_fresh env res path mime h1 h2 h3 h4 h5 h6] at hmem
                simp only [installRest] at hmem
                rcases List.mem_cons.mp hmem with he | hmem2
                · simp at he
                · cases hsd : res.metaSDesc with
                  | none =>
                    rw [hsd] at hmem2
                    simp at hmem2
                  | some s =>
                    rw [hsd] at hmem2
                    obtain ⟨ha, hb, _⟩ := setIcon_mem_installRestEvents hmem2
                    exact ⟨ha, hb⟩
              · rw [install_run_fresh_fail env res path mime h1 h2 h3 h4 h5 h6] at hmem
                simp at hmem
  · intro mime s bytes h1 h2 h3 h4 h5 hsd hicon hlen
    rw [install_run_installed env res path mime h1 h2 h3 h4 h5]
    simp [installRest, hsd, installRestEvents, iconEvents, hicon, hlen]

/-- Claim C10 witness: a present, non-empty icon resource is written. -/
theorem c10_icon_written_iff_nonempty_witness :
    Event.setIcon "application/x-sen-note" [1, 2, 3] ∈
      (InstallMimeTypeFromResource envInstalled resFull "app.rsrc").events :=
  (c10_icon_written_iff_nonempty envInstalled resFull "app.rsrc").2
    "application/x-sen-note" "SEN Note" [1, 2, 3] rfl rfl rfl rfl rfl rfl rfl
    (by decide)

end Mime
